import Mathlib

/-!
# Verification of the turn-orchestration core of parrot-lm

Shallow embedding of `src/orchestrator.py` (classes `Agent` and
`Orchestrator`) and of the incremental-save pattern of
`src/run_experiment.py` (`run_experiments`).

External effects are made explicit data:

* the chat-completion transport is an oracle — each attempt of a call
  either raises (`Except.error ()`) or returns a `Response` (the fields
  of the provider response the code reads: `content`, `finish_reason`,
  `usage`, plus the measured wall-clock latency, which is a clock
  reading, hence part of the environment);
* the UTC timestamp stamped on a log entry is carried by the oracle
  (`CallEnv.timestamp`);
* the tenacity decorator `@retry(stop=stop_after_attempt(3), ...)`
  re-runs the whole function body on an exception, up to 3 attempts in
  total; it is modelled as fuel-limited recursion over the per-attempt
  oracle outcomes, re-running the body (including the `history.append`
  of the user message) on every attempt;
* the JSONL log file is modelled as the list of the log entries written
  to it, one entry per line.

Sampling parameters (`**kwargs` / `params`) are forwarded verbatim to
the transport and influence only the oracle's answers, so they are
absorbed into the oracle and carry no separate representation.
-/

namespace ParrotLM

/-- Role of a chat message (`"system" | "user" | "assistant"`). -/
inductive Role where
  | system
  | user
  | assistant
  deriving DecidableEq, Repr

/-- One entry of an agent's history: `{"role": ..., "content": ...}`. -/
structure Message where
  role : Role
  content : String
  deriving DecidableEq, Repr

/-- The data the code reads off a completion response:
`response.choices[0].message.content` (nullable),
`response.choices[0].finish_reason`,
`response.usage.{prompt_tokens, completion_tokens}` (usage nullable),
together with the measured wall-clock latency of the request. -/
structure Response where
  content : Option String
  finish_reason : String
  usage : Option (Nat × Nat)
  latency_ms : Nat
  deriving DecidableEq, Repr

/-- The dictionary returned by `Agent.generate_response`. -/
structure TurnResult where
  content : Option String
  latency_ms : Nat
  input_tokens : Nat
  output_tokens : Nat
  finish_reason : String
  is_refusal : Bool
  deriving DecidableEq, Repr

/-- Python truthiness of the nullable `content` string:
`bool(content)` is `False` exactly when `content` is `None` or `""`. -/
def contentTruthy (c : Option String) : Bool :=
  !(c.getD "" == "")

/-- The refusal test `is_refusal = not content or finish_reason == "content_filter"`
(src/orchestrator.py line 71). -/
def respRefusal (r : Response) : Bool :=
  !contentTruthy r.content || r.finish_reason == "content_filter"

/-- The `TurnResult` dictionary built from a successful response
(src/orchestrator.py lines 64-84): token counts default to 0 when
`response.usage` is absent. -/
def mkTurnResult (r : Response) : TurnResult :=
  { content := r.content
    latency_ms := r.latency_ms
    input_tokens := (r.usage.map Prod.fst).getD 0
    output_tokens := (r.usage.map Prod.snd).getD 0
    finish_reason := r.finish_reason
    is_refusal := respRefusal r }

/-- State of one `Agent` (src/orchestrator.py lines 20-40). The OpenAI
client handle is pure configuration (base url + api key) and is not
part of the observable state. -/
structure AgentState where
  model_slug : String
  system_prompt : String
  name : String
  history : List Message
  deriving DecidableEq, Repr

/-- Constructor `Agent.__init__`: history starts as the single system message. -/
def Agent.init (model_slug system_prompt name : String) : AgentState :=
  { model_slug := model_slug
    system_prompt := system_prompt
    name := name
    history := [Message.mk Role.system system_prompt] }

/-- Method `Agent.generate_response` (src/orchestrator.py lines 42-88) under the
tenacity decorator, driven by the oracle list `outs` of per-attempt
transport outcomes. `fuel` is the number of attempts still allowed
(`stop_after_attempt(3)` means the initial call uses `fuel = 3`).
Each attempt re-runs the whole body, so the user message is appended to
the history again on every attempt; the assistant message is appended
only on success and only `if content` is truthy.
Returns the updated agent state together with either the `TurnResult`
or the propagated exception. An exhausted oracle (`outs = []`) counts
as a raising attempt with no retries left. -/
def generate_response (input_text : String) :
    AgentState → List (Except Unit Response) → Nat →
    AgentState × Except Unit TurnResult
  | ag, outs, fuel =>
    let ag1 : AgentState :=
      { ag with history := ag.history ++ [Message.mk Role.user input_text] }
    match outs with
    | [] => (ag1, Except.error ())
    | Except.ok r :: _ =>
      let ag2 : AgentState :=
        if contentTruthy r.content then
          { ag1 with history :=
              ag1.history ++ [Message.mk Role.assistant (r.content.getD "")] }
        else ag1
      (ag2, Except.ok (mkTurnResult r))
    | Except.error e :: rest =>
      match fuel with
      | 0 => (ag1, Except.error e)
      | 1 => (ag1, Except.error e)
      | n + 2 => generate_response input_text ag1 rest (n + 1)

/-- The result component of `generate_response`, which depends only on
the oracle outcomes and the remaining attempt budget, not on the agent
state. -/
def callResult : List (Except Unit Response) → Nat → Except Unit TurnResult
  | [], _ => Except.error ()
  | Except.ok r :: _, _ => Except.ok (mkTurnResult r)
  | Except.error e :: rest, fuel =>
    match fuel with
    | 0 => Except.error e
    | 1 => Except.error e
    | n + 2 => callResult rest (n + 1)

/-- The messages a call of `generate_response` appends to the agent's
history: one user copy per attempt made, plus the assistant message
when the final attempt succeeds with truthy content. -/
def appendedMessages (input_text : String) :
    List (Except Unit Response) → Nat → List Message
  | [], _ => [Message.mk Role.user input_text]
  | Except.ok r :: _, _ =>
    Message.mk Role.user input_text ::
      (if contentTruthy r.content then
        [Message.mk Role.assistant (r.content.getD "")] else [])
  | Except.error _ :: rest, fuel =>
    match fuel with
    | 0 => [Message.mk Role.user input_text]
    | 1 => [Message.mk Role.user input_text]
    | n + 2 => Message.mk Role.user input_text :: appendedMessages input_text rest (n + 1)

/-- Decomposition: `generate_response` splits into a pure history extension and the
state-independent `callResult`. -/
lemma generate_response_eq (input_text : String) :
    ∀ (outs : List (Except Unit Response)) (fuel : Nat) (ag : AgentState),
      generate_response input_text ag outs fuel =
        ({ ag with history := ag.history ++ appendedMessages input_text outs fuel },
          callResult outs fuel)
  | [], fuel, ag => by
    simp [generate_response, appendedMessages, callResult]
  | Except.ok r :: rest, fuel, ag => by
    simp only [generate_response, appendedMessages, callResult]
    by_cases h : contentTruthy r.content = true
    · simp [h, List.append_assoc]
    · simp [Bool.not_eq_true] at h
      simp [h]
  | Except.error e :: rest, fuel, ag => by
    match fuel with
    | 0 => simp [generate_response, appendedMessages, callResult]
    | 1 => simp [generate_response, appendedMessages, callResult]
    | n + 2 =>
      simp only [generate_response, appendedMessages, callResult]
      rw [generate_response_eq input_text rest (n + 1)]
      simp [List.append_assoc]

/-- One agent's configuration dictionary as consumed by
`Orchestrator.__init__`: `"model"`, `"system_prompt"`, and the optional
`"user_persona_snapshot"` key (absent key modelled as `none`). The
`"params"` bag is forwarded to the transport and absorbed into the
oracle. -/
structure AgentConfig where
  model : String
  system_prompt : String
  user_persona_snapshot : Option String
  deriving DecidableEq, Repr

/-- The log entry dictionary built by `Orchestrator._create_log_entry`
(src/orchestrator.py lines 177-195). `timestamp` is the UTC clock
reading at entry-creation time, supplied by the environment. -/
structure LogEntry where
  experiment_id : String
  turn_id : Nat
  scenario : String
  speaker_model : String
  responder_model : String
  timestamp : Nat
  latency_ms : Nat
  input_tokens : Nat
  output_tokens : Nat
  content : Option String
  finish_reason : String
  is_refusal : Bool
  system_prompt_snapshot : String
  deriving DecidableEq, Repr

/-- State of one `Orchestrator` (src/orchestrator.py lines 94-123). -/
structure OrchestratorState where
  experiment_id : String
  scenario_name : String
  agent_a : AgentState
  agent_b : AgentState
  persona_a_snapshot : String
  persona_b_snapshot : String
  logs : List LogEntry
  deriving DecidableEq, Repr

/-- Constructor `Orchestrator.__init__`: builds the two agents (named `"Agent A"`
and `"Agent B"`), takes the experiment id from the config or a fresh
uuid, and snapshots the personas: the config's
`user_persona_snapshot` if supplied, else that agent's system prompt. -/
def Orchestrator.init (agent_a_config agent_b_config : AgentConfig)
    (scenario_name : String) (experiment_id : Option String)
    (fresh_uuid : String) : OrchestratorState :=
  let agent_a := Agent.init agent_a_config.model agent_a_config.system_prompt "Agent A"
  let agent_b := Agent.init agent_b_config.model agent_b_config.system_prompt "Agent B"
  { experiment_id := experiment_id.getD fresh_uuid
    scenario_name := scenario_name
    agent_a := agent_a
    agent_b := agent_b
    persona_a_snapshot := agent_a_config.user_persona_snapshot.getD agent_a.system_prompt
    persona_b_snapshot := agent_b_config.user_persona_snapshot.getD agent_b.system_prompt
    logs := [] }

/-- Method `Orchestrator._create_log_entry`: the persona snapshot stamped on
the entry is chosen by `speaker.name == "Agent A"`. -/
def create_log_entry (st : OrchestratorState) (turn_id : Nat)
    (speaker responder : AgentState) (response_data : TurnResult)
    (timestamp : Nat) : LogEntry :=
  { experiment_id := st.experiment_id
    turn_id := turn_id
    scenario := st.scenario_name
    speaker_model := speaker.model_slug
    responder_model := responder.model_slug
    timestamp := timestamp
    latency_ms := response_data.latency_ms
    input_tokens := response_data.input_tokens
    output_tokens := response_data.output_tokens
    content := response_data.content
    finish_reason := response_data.finish_reason
    is_refusal := response_data.is_refusal
    system_prompt_snapshot :=
      if speaker.name == "Agent A" then st.persona_a_snapshot
      else st.persona_b_snapshot }

/-- Environment of one completion call: the oracle outcomes of its
attempts and the UTC clock reading used for the log entry's
timestamp. -/
structure CallEnv where
  attempts : List (Except Unit Response)
  timestamp : Nat

/-- How a run of `run_simulation` ended: loop exhaustion, an agent's
refusal (`break` after the entry is logged), or an exception after
retries exhausted (`break` with nothing logged for that turn).
`exhausted`, `refusal_a` and `refusal_b` are the spec's `completed`
state; `error_a` and `error_b` are `aborted`. -/
inductive StopReason where
  | exhausted
  | refusal_a
  | refusal_b
  | error_a
  | error_b
  deriving DecidableEq, Repr

/-- The `for turn_id in range(num_turns)` loop of
`Orchestrator.run_simulation` (src/orchestrator.py lines 135-175).
`env i` is the environment of the i-th completion call of the run:
Agent A's call of round `turn_id` is call `2 * turn_id`, Agent B's is
call `2 * turn_id + 1`. Returns the final orchestrator state, the
list of yielded log entries, and the stop reason. The local
`last_message` is updated to the result's `content` before the refusal
check; the loop only continues when the result was not a refusal, in
which case `content` is a truthy string, so `Option.getD ""` never
substitutes on a path where the value is used. -/
def run_loop (env : Nat → CallEnv) :
    OrchestratorState → String → Nat → Nat →
    OrchestratorState × List LogEntry × StopReason
  | st, _, _, 0 => (st, [], StopReason.exhausted)
  | st, last_message, turn_id, remaining + 1 =>
    let callA := env (2 * turn_id)
    let resA := generate_response last_message st.agent_a callA.attempts 3
    let st1 := { st with agent_a := resA.1 }
    match resA.2 with
    | Except.error _ => (st1, [], StopReason.error_a)
    | Except.ok response_a =>
      let log_entry_a :=
        create_log_entry st1 turn_id st1.agent_a st1.agent_b response_a callA.timestamp
      let st2 := { st1 with logs := st1.logs ++ [log_entry_a] }
      let last1 := response_a.content.getD ""
      if response_a.is_refusal then
        (st2, [log_entry_a], StopReason.refusal_a)
      else
        let callB := env (2 * turn_id + 1)
        let resB := generate_response last1 st2.agent_b callB.attempts 3
        let st3 := { st2 with agent_b := resB.1 }
        match resB.2 with
        | Except.error _ => (st3, [log_entry_a], StopReason.error_b)
        | Except.ok response_b =>
          let log_entry_b :=
            create_log_entry st3 turn_id st3.agent_b st3.agent_a response_b callB.timestamp
          let st4 := { st3 with logs := st3.logs ++ [log_entry_b] }
          let last2 := response_b.content.getD ""
          if response_b.is_refusal then
            (st4, [log_entry_a, log_entry_b], StopReason.refusal_b)
          else
            let tail := run_loop env st4 last2 (turn_id + 1) remaining
            (tail.1, log_entry_a :: log_entry_b :: tail.2.1, tail.2.2)

/-- Method `Orchestrator.run_simulation(num_turns, initial_message)`. -/
def run_simulation (st : OrchestratorState) (num_turns : Nat)
    (initial_message : String) (env : Nat → CallEnv) :
    OrchestratorState × List LogEntry × StopReason :=
  run_loop env st initial_message 0 num_turns

/-- Method `Orchestrator.save_logs`: opens the file in append mode and writes
every accumulated entry, one JSON object per line; the file is
modelled as its list of entries. -/
def save_logs (st : OrchestratorState) (file_lines : List LogEntry) :
    List LogEntry :=
  file_lines ++ st.logs

/-- The save pattern of `run_experiments` (src/run_experiment.py lines
62-65): one `save_logs` call per yielded entry, on the same file. When
the j-th entry (0-based) is yielded, the orchestrator's accumulated
`logs` list is `ys.take (j + 1)`, so the j-th save appends exactly
that prefix. `st0` carries the orchestrator's non-log fields (unused
by `save_logs`). -/
def run_experiments_file (st0 : OrchestratorState) (ys : List LogEntry)
    (file0 : List LogEntry) : List LogEntry :=
  (List.range ys.length).foldl
    (fun f j => save_logs { st0 with logs := ys.take (j + 1) } f) file0

/-- Whether a completion call with 3 attempts allowed succeeds with a
non-refusing result, as a function of the call environment alone. -/
def callOkB (c : CallEnv) : Bool :=
  match callResult c.attempts 3 with
  | Except.ok tr => !tr.is_refusal
  | Except.error _ => false

lemma callOkB_iff (c : CallEnv) :
    callOkB c = true ↔
      ∃ tr, callResult c.attempts 3 = Except.ok tr ∧ tr.is_refusal = false := by
  unfold callOkB
  rcases h : callResult c.attempts 3 with e | tr <;> simp [h]

/-- The final log list is the initial one extended by exactly the
yielded entries, whatever the stop reason: nothing is rolled back. -/
lemma run_loop_logs (env : Nat → CallEnv) :
    ∀ (remaining : Nat) (st : OrchestratorState) (last_message : String)
      (turn_id : Nat),
      (run_loop env st last_message turn_id remaining).1.logs =
        st.logs ++ (run_loop env st last_message turn_id remaining).2.1 := by
  intro remaining
  induction remaining with
  | zero => intro st last_message turn_id; simp [run_loop]
  | succ n ih =>
    intro st last_message turn_id
    rw [run_loop]
    simp only [generate_response_eq]
    rcases hA : callResult (env (2 * turn_id)).attempts 3 with eA | trA
    · simp
    · simp only []
      by_cases hrA : trA.is_refusal = true
      · simp [hrA]
      · simp only [Bool.not_eq_true] at hrA
        simp only [hrA, if_neg Bool.false_ne_true]
        rcases hB : callResult (env (2 * turn_id + 1)).attempts 3 with eB | trB
        · simp
        · simp only []
          by_cases hrB : trB.is_refusal = true
          · simp [hrB]
          · simp only [Bool.not_eq_true] at hrB
            simp only [hrB, if_neg Bool.false_ne_true]
            rw [ih]
            simp [List.append_assoc]

/-- A window of successful non-refusing calls makes the loop run to
exhaustion, yielding two entries per round. -/
lemma run_loop_length (env : Nat → CallEnv) :
    ∀ (remaining : Nat) (st : OrchestratorState) (last_message : String)
      (turn_id : Nat),
      (∀ i, 2 * turn_id ≤ i → i < 2 * turn_id + 2 * remaining →
        callOkB (env i) = true) →
      (run_loop env st last_message turn_id remaining).2.1.length = 2 * remaining ∧
      (run_loop env st last_message turn_id remaining).2.2 = StopReason.exhausted := by
  intro remaining
  induction remaining with
  | zero => intro st last_message turn_id hok; simp [run_loop]
  | succ n ih =>
    intro st last_message turn_id hok
    obtain ⟨trA, hA, hrA⟩ := (callOkB_iff _).mp
      (hok (2 * turn_id) (Nat.le_refl _) (by omega))
    obtain ⟨trB, hB, hrB⟩ := (callOkB_iff _).mp
      (hok (2 * turn_id + 1) (by omega) (by omega))
    rw [run_loop]
    simp only [generate_response_eq]
    rw [hA]
    simp only [hrA, if_neg Bool.false_ne_true]
    rw [hB]
    simp only [hrB, if_neg Bool.false_ne_true]
    have key : ∀ st' : OrchestratorState,
        (run_loop env st' (trB.content.getD "") (turn_id + 1) n).2.1.length = 2 * n ∧
        (run_loop env st' (trB.content.getD "") (turn_id + 1) n).2.2 =
          StopReason.exhausted :=
      fun st' => ih st' _ _ (fun i h1 h2 => hok i (by omega) (by omega))
    constructor
    · rw [List.length_cons, List.length_cons, (key _).1]
      omega
    · exact (key _).2

/-- Parity of the yielded-entry count at the two refusal stop reasons:
odd when Agent A's result refused (B got no reply that round), even
when Agent B's did. -/
lemma run_loop_parity (env : Nat → CallEnv) :
    ∀ (remaining : Nat) (st : OrchestratorState) (last_message : String)
      (turn_id : Nat),
      ((run_loop env st last_message turn_id remaining).2.2 = StopReason.refusal_a →
        (run_loop env st last_message turn_id remaining).2.1.length % 2 = 1) ∧
      ((run_loop env st last_message turn_id remaining).2.2 = StopReason.refusal_b →
        (run_loop env st last_message turn_id remaining).2.1.length % 2 = 0) := by
  intro remaining
  induction remaining with
  | zero => intro st last_message turn_id; simp [run_loop]
  | succ n ih =>
    intro st last_message turn_id
    rw [run_loop]
    simp only [generate_response_eq]
    rcases hA : callResult (env (2 * turn_id)).attempts 3 with eA | trA
    · simp
    · simp only []
      by_cases hrA : trA.is_refusal = true
      · simp [hrA]
      · simp only [Bool.not_eq_true] at hrA
        simp only [hrA, if_neg Bool.false_ne_true]
        rcases hB : callResult (env (2 * turn_id + 1)).attempts 3 with eB | trB
        · simp
        · simp only []
          by_cases hrB : trB.is_refusal = true
          · simp [hrB]
          · simp only [Bool.not_eq_true] at hrB
            simp only [hrB, if_neg Bool.false_ne_true]
            have key : ∀ st' : OrchestratorState,
                ((run_loop env st' (trB.content.getD "") (turn_id + 1) n).2.2 =
                    StopReason.refusal_a →
                  (run_loop env st' (trB.content.getD "") (turn_id + 1) n).2.1.length % 2
                    = 1) ∧
                ((run_loop env st' (trB.content.getD "") (turn_id + 1) n).2.2 =
                    StopReason.refusal_b →
                  (run_loop env st' (trB.content.getD "") (turn_id + 1) n).2.1.length % 2
                    = 0) :=
              fun st' => ih st' _ _
            constructor
            · intro hstop
              rw [List.length_cons, List.length_cons]
              have := ((key _).1 hstop)
              omega
            · intro hstop
              rw [List.length_cons, List.length_cons]
              have := ((key _).2 hstop)
              omega

/-- Pointwise specification of a list of yielded entries: the entry at
offset `j` (counting from the given start offset within rounds that
began at round `t`) carries `turn_id = t + j / 2`, and its persona
snapshot, speaker model and responder model follow the parity of `j`
(even offsets are Agent A's entries, odd ones Agent B's). -/
def EntriesFrom (snapA snapB modelA modelB : String) :
    Nat → Nat → List LogEntry → Prop
  | _, _, [] => True
  | t, j, e :: rest =>
    (e.turn_id = t + j / 2 ∧
      e.system_prompt_snapshot = (if j % 2 = 0 then snapA else snapB) ∧
      e.speaker_model = (if j % 2 = 0 then modelA else modelB) ∧
      e.responder_model = (if j % 2 = 0 then modelB else modelA)) ∧
    EntriesFrom snapA snapB modelA modelB t (j + 1) rest

/-- Shifting the round base down by one is the same as shifting the
entry offset up by two. -/
lemma EntriesFrom_shift (snapA snapB modelA modelB : String) :
    ∀ (l : List LogEntry) (t j : Nat),
      EntriesFrom snapA snapB modelA modelB (t + 1) j l →
      EntriesFrom snapA snapB modelA modelB t (j + 2) l := by
  intro l
  induction l with
  | nil => intro t j h; trivial
  | cons e rest ih =>
    intro t j h
    obtain ⟨⟨h1, h2, h3, h4⟩, hrest⟩ := h
    refine ⟨⟨?_, ?_, ?_, ?_⟩, ?_⟩
    · rw [h1]; omega
    · rw [h2, show (j + 2) % 2 = j % 2 by omega]
    · rw [h3, show (j + 2) % 2 = j % 2 by omega]
    · rw [h4, show (j + 2) % 2 = j % 2 by omega]
    · have := ih t (j + 1) hrest
      rw [show j + 1 + 2 = j + 2 + 1 by omega] at this
      exact this

/-- Reading `EntriesFrom` at an index. -/
lemma EntriesFrom_getElem (snapA snapB modelA modelB : String) :
    ∀ (l : List LogEntry) (t j0 : Nat),
      EntriesFrom snapA snapB modelA modelB t j0 l →
      ∀ (j : Nat) (h : j < l.length),
        l[j].turn_id = t + (j0 + j) / 2 ∧
        l[j].system_prompt_snapshot = (if (j0 + j) % 2 = 0 then snapA else snapB) ∧
        l[j].speaker_model = (if (j0 + j) % 2 = 0 then modelA else modelB) ∧
        l[j].responder_model = (if (j0 + j) % 2 = 0 then modelB else modelA) := by
  intro l
  induction l with
  | nil => intro t j0 hl j h; simp at h
  | cons e rest ih =>
    intro t j0 hl j h
    obtain ⟨he, hrest⟩ := hl
    rcases j with _ | j
    · simpa using he
    · have := ih t (j0 + 1) hrest j (by simpa using Nat.succ_lt_succ_iff.mp h)
      rw [show j0 + 1 + j = j0 + (j + 1) by omega] at this
      simpa using this

/-- The entries yielded by `run_loop` starting at round `turn_id`
satisfy the pointwise specification with offset 0: the parameters are
the persona snapshot each side's entries receive (as selected by
`_create_log_entry`'s `speaker.name == "Agent A"` test) and the two
model slugs. -/
lemma run_loop_entriesFrom (env : Nat → CallEnv) :
    ∀ (remaining : Nat) (st : OrchestratorState) (last_message : String)
      (turn_id : Nat) (snapA snapB modelA modelB : String),
      snapA = (if st.agent_a.name == "Agent A" then st.persona_a_snapshot
        else st.persona_b_snapshot) →
      snapB = (if st.agent_b.name == "Agent A" then st.persona_a_snapshot
        else st.persona_b_snapshot) →
      modelA = st.agent_a.model_slug →
      modelB = st.agent_b.model_slug →
      EntriesFrom snapA snapB modelA modelB
        turn_id 0 (run_loop env st last_message turn_id remaining).2.1 := by
  intro remaining
  induction remaining with
  | zero =>
    intro st lm t snapA snapB modelA modelB h1 h2 h3 h4
    simp [run_loop, EntriesFrom]
  | succ n ih =>
    intro st lm t snapA snapB modelA modelB h1 h2 h3 h4
    subst h1; subst h2; subst h3; subst h4
    rw [run_loop]
    simp only [generate_response_eq]
    rcases hA : callResult (env (2 * t)).attempts 3 with eA | trA
    · simp [EntriesFrom]
    · simp only []
      by_cases hrA : trA.is_refusal = true
      · simp [hrA, EntriesFrom, create_log_entry]
      · simp only [Bool.not_eq_true] at hrA
        simp only [hrA, if_neg Bool.false_ne_true]
        rcases hB : callResult (env (2 * t + 1)).attempts 3 with eB | trB
        · simp [EntriesFrom, create_log_entry]
        · simp only []
          by_cases hrB : trB.is_refusal = true
          · simp [hrB, EntriesFrom, create_log_entry]
          · simp only [Bool.not_eq_true] at hrB
            simp only [hrB, if_neg Bool.false_ne_true]
            refine ⟨?_, ?_, ?_⟩
            · simp [create_log_entry]
            · simp [create_log_entry]
            · exact EntriesFrom_shift _ _ _ _ _ t 0
                (ih _ _ (t + 1) _ _ _ _ rfl rfl rfl rfl)

lemma callResult_three_errors (rest : List (Except Unit Response)) :
    callResult (Except.error () :: Except.error () :: Except.error () :: rest) 3 =
      Except.error () := rfl

lemma callResult_two_errors_ok (r : Response) (rest : List (Except Unit Response)) :
    callResult (Except.error () :: Except.error () :: Except.ok r :: rest) 3 =
      Except.ok (mkTurnResult r) := rfl

lemma callResult_ok_head (r : Response) (rest : List (Except Unit Response))
    (fuel : Nat) :
    callResult (Except.ok r :: rest) fuel = Except.ok (mkTurnResult r) := rfl

lemma appendedMessages_three_errors (input_text : String) :
    appendedMessages input_text
        [Except.error (), Except.error (), Except.error ()] 3 =
      [Message.mk Role.user input_text, Message.mk Role.user input_text,
        Message.mk Role.user input_text] := rfl

lemma appendedMessages_two_errors_ok (input_text : String) (r : Response)
    (rest : List (Except Unit Response)) :
    appendedMessages input_text
        (Except.error () :: Except.error () :: Except.ok r :: rest) 3 =
      Message.mk Role.user input_text :: Message.mk Role.user input_text ::
        Message.mk Role.user input_text ::
        (if contentTruthy r.content then
          [Message.mk Role.assistant (r.content.getD "")] else []) := rfl

lemma appendedMessages_ok_head (input_text : String) (r : Response)
    (rest : List (Except Unit Response)) (fuel : Nat) :
    appendedMessages input_text (Except.ok r :: rest) fuel =
      Message.mk Role.user input_text ::
        (if contentTruthy r.content then
          [Message.mk Role.assistant (r.content.getD "")] else []) := rfl

/-- A successful `callResult` is the `TurnResult` built from some
response returned by the transport. -/
lemma callResult_ok_inv :
    ∀ (outs : List (Except Unit Response)) (fuel : Nat) (tr : TurnResult),
      callResult outs fuel = Except.ok tr → ∃ r, tr = mkTurnResult r
  | [], fuel, tr => by simp [callResult]
  | Except.ok r :: rest, fuel, tr => by
    simp [callResult]
    intro h; exact ⟨r, h.symm⟩
  | Except.error e :: rest, fuel, tr => by
    match fuel with
    | 0 => simp [callResult]
    | 1 => simp [callResult]
    | n + 2 =>
      simp only [callResult]
      exact callResult_ok_inv rest (n + 1) tr

/-- A non-refusing result has truthy content and a finish reason other
than the content-filter sentinel. -/
lemma respRefusal_false_iff (r : Response) :
    respRefusal r = false ↔
      contentTruthy r.content = true ∧ (r.finish_reason == "content_filter") = false := by
  unfold respRefusal
  cases hc : contentTruthy r.content <;> simp [hc]

/-- C1. For every completion result, the refusal flag returned by
`Agent.generate_response` is true if and only if the generated content
is empty or absent OR the finish reason equals `"content_filter"`:
both sub-conditions independently suffice, and no other condition
makes it true. -/
theorem claim_C1 (ag ag2 : AgentState) (input_text : String)
    (outs : List (Except Unit Response)) (tr : TurnResult)
    (h : generate_response input_text ag outs 3 = (ag2, Except.ok tr)) :
    tr.is_refusal = true ↔
      (tr.content = none ∨ tr.content = some "" ∨
        tr.finish_reason = "content_filter") := by
  have hres : callResult outs 3 = Except.ok tr := by
    have := congrArg Prod.snd h
    rw [generate_response_eq] at this
    exact this
  obtain ⟨r, rfl⟩ := callResult_ok_inv outs 3 tr hres
  rcases hc : r.content with _ | s
  · simp [mkTurnResult, respRefusal, contentTruthy, hc]
  · simp [mkTurnResult, respRefusal, contentTruthy, hc]

/-! Concrete sample data used to witness the theorems on explicit
inputs. -/

/-- A successful, non-refusing response. -/
def respSample : Response :=
  { content := some "Hi there", finish_reason := "stop",
    usage := some (12, 7), latency_ms := 100 }

/-- A second successful, non-refusing response (without usage data). -/
def respSampleB : Response :=
  { content := some "Hello back", finish_reason := "stop",
    usage := none, latency_ms := 80 }

/-- A refusing response with absent content. -/
def respEmpty : Response :=
  { content := none, finish_reason := "stop",
    usage := some (3, 0), latency_ms := 50 }

/-- A refusing response flagged by the content filter whose content is
nevertheless non-empty. -/
def respFiltered : Response :=
  { content := some "I cannot continue", finish_reason := "content_filter",
    usage := some (5, 4), latency_ms := 60 }

/-- Sample configuration for Agent A, with a persona override. -/
def cfgSampleA : AgentConfig :=
  { model := "provider/model-alpha", system_prompt := "You are agent alpha.",
    user_persona_snapshot := some "Alpha persona" }

/-- Sample configuration for Agent B, without a persona override. -/
def cfgSampleB : AgentConfig :=
  { model := "provider/model-beta", system_prompt := "You are agent beta.",
    user_persona_snapshot := none }

/-- A sample freshly constructed orchestrator. -/
def stSample : OrchestratorState :=
  Orchestrator.init cfgSampleA cfgSampleB "negotiation" none "uuid-1234"

/-- A sample freshly constructed agent. -/
def agSample : AgentState :=
  Agent.init "provider/model-alpha" "You are agent alpha." "Agent A"

/-- Environment where every call succeeds on its first attempt with a
non-refusing result. -/
def envOk : Nat → CallEnv :=
  fun i => { attempts := [Except.ok respSample], timestamp := i }

/-- Environment where the very first call (Agent A's) refuses. -/
def envRefuseA : Nat → CallEnv :=
  fun i => { attempts := [Except.ok respEmpty], timestamp := i }

/-- Environment where Agent B's first call (call index 1) refuses and
all other calls succeed. -/
def envRefuseB : Nat → CallEnv :=
  fun i =>
    if i = 1 then { attempts := [Except.ok respEmpty], timestamp := i }
    else { attempts := [Except.ok respSample], timestamp := i }

/-- Environment where every attempt of every call raises. -/
def envFail : Nat → CallEnv :=
  fun i =>
    { attempts := [Except.error (), Except.error (), Except.error ()],
      timestamp := i }

/-- Witness for C1 at a concrete refusing call. -/
theorem claim_C1_witness :
    (mkTurnResult respFiltered).is_refusal = true ↔
      ((mkTurnResult respFiltered).content = none ∨
        (mkTurnResult respFiltered).content = some "" ∨
        (mkTurnResult respFiltered).finish_reason = "content_filter") :=
  claim_C1 agSample
    { agSample with history := agSample.history ++
        [Message.mk Role.user "Please continue.",
          Message.mk Role.assistant "I cannot continue"] }
    "Please continue." [Except.ok respFiltered] (mkTurnResult respFiltered)
    (by simp [generate_response, respFiltered, contentTruthy])

/-- C2. For every `num_turns = n`, a run of `Orchestrator.run_simulation`
in which every completion call succeeds and no result is a refusal
yields exactly `2 * n` log entries; if a refusal truncates the run, the
total entry count is odd exactly when the refusing result is Agent A's
(A refuses before B's reply of that round) and even when it is Agent
B's. -/
theorem claim_C2 :
    (∀ (st : OrchestratorState) (num_turns : Nat) (initial_message : String)
        (env : Nat → CallEnv),
      (∀ i, i < 2 * num_turns → callOkB (env i) = true) →
      (run_simulation st num_turns initial_message env).2.1.length = 2 * num_turns) ∧
    (∀ (st : OrchestratorState) (num_turns : Nat) (initial_message : String)
        (env : Nat → CallEnv),
      (run_simulation st num_turns initial_message env).2.2 = StopReason.refusal_a →
      (run_simulation st num_turns initial_message env).2.1.length % 2 = 1) ∧
    (∀ (st : OrchestratorState) (num_turns : Nat) (initial_message : String)
        (env : Nat → CallEnv),
      (run_simulation st num_turns initial_message env).2.2 = StopReason.refusal_b →
      (run_simulation st num_turns initial_message env).2.1.length % 2 = 0) := by
  refine ⟨?_, ?_, ?_⟩
  · intro st num_turns initial_message env hok
    exact (run_loop_length env num_turns st initial_message 0
      (fun i h1 h2 => hok i (by omega))).1
  · intro st num_turns initial_message env hstop
    exact (run_loop_parity env num_turns st initial_message 0).1 hstop
  · intro st num_turns initial_message env hstop
    exact (run_loop_parity env num_turns st initial_message 0).2 hstop

/-- Witness for C2: a clean 2-round run yields 4 entries; an immediate
refusal by A yields an odd count; B refusing in round 0 yields an even
count. -/
theorem claim_C2_witness :
    (run_simulation stSample 2 "Hello." envOk).2.1.length = 2 * 2 ∧
    (run_simulation stSample 1 "Hello." envRefuseA).2.1.length % 2 = 1 ∧
    (run_simulation stSample 2 "Hello." envRefuseB).2.1.length % 2 = 0 :=
  ⟨claim_C2.1 stSample 2 "Hello." envOk (by decide),
    claim_C2.2.1 stSample 1 "Hello." envRefuseA (by decide),
    claim_C2.2.2 stSample 2 "Hello." envRefuseB (by decide)⟩

/-- Iterated `Agent.generate_response` calls, each call succeeding
on its first attempt with the given response. -/
def generate_response_iter : AgentState → List (String × Response) → AgentState
  | ag, [] => ag
  | ag, (input_text, r) :: rest =>
    generate_response_iter
      (generate_response input_text ag [Except.ok r] 3).1 rest

lemma generate_response_iter_length :
    ∀ (calls : List (String × Response)) (ag : AgentState),
      (∀ p ∈ calls, contentTruthy p.2.content = true) →
      (generate_response_iter ag calls).history.length =
        ag.history.length + 2 * calls.length := by
  intro calls
  induction calls with
  | nil => intro ag hall; simp [generate_response_iter]
  | cons p rest ih =>
    intro ag hall
    obtain ⟨input_text, r⟩ := p
    have hr : contentTruthy r.content = true := hall (input_text, r) (by simp)
    rw [generate_response_iter, generate_response_eq,
      ih _ (fun q hq => hall q (by simp [hq]))]
    simp [appendedMessages_ok_head, hr]
    omega

/-- Counterexample to C3 as stated: a first-attempt success whose
finish reason is `"content_filter"` but whose content is non-empty is
a refusal, yet it appends two messages (user and assistant) to the
agent's history, not one. -/
theorem claim_C3_counterexample :
    (generate_response "Please continue." agSample [Except.ok respFiltered] 3).2 =
      Except.ok (mkTurnResult respFiltered) ∧
    (mkTurnResult respFiltered).is_refusal = true ∧
    (generate_response "Please continue." agSample
        [Except.ok respFiltered] 3).1.history.length =
      agSample.history.length + 2 := by
  refine ⟨rfl, by decide, by decide⟩

/-- C3 (amended). For every agent, after `k` calls to
`generate_response` that each succeed on their first attempt with a
non-refusing result, the agent's history has length `1 + 2 * k`; a
first-attempt call whose result is a refusal with empty or absent
content adds exactly 1 message (the user message only) to that agent's
history, while a refusal whose content is non-empty (a
`"content_filter"` finish reason) adds 2 messages (user and
assistant). -/
theorem claim_C3_amended :
    (∀ (model_slug system_prompt name : String)
        (calls : List (String × Response)),
      (∀ p ∈ calls, respRefusal p.2 = false) →
      (generate_response_iter (Agent.init model_slug system_prompt name)
          calls).history.length = 1 + 2 * calls.length) ∧
    (∀ (ag : AgentState) (input_text : String) (r : Response),
      respRefusal r = true → contentTruthy r.content = false →
      (generate_response input_text ag [Except.ok r] 3).1.history.length =
        ag.history.length + 1) ∧
    (∀ (ag : AgentState) (input_text : String) (r : Response),
      respRefusal r = true → contentTruthy r.content = true →
      (generate_response input_text ag [Except.ok r] 3).1.history.length =
        ag.history.length + 2) := by
  refine ⟨?_, ?_, ?_⟩
  · intro model_slug system_prompt name calls hall
    rw [generate_response_iter_length calls _
      (fun p hp => ((respRefusal_false_iff p.2).mp (hall p hp)).1)]
    simp [Agent.init]
  · intro ag input_text r _ hc
    rw [generate_response_eq]
    simp [appendedMessages_ok_head, hc]
  · intro ag input_text r _ hc
    rw [generate_response_eq]
    simp [appendedMessages_ok_head, hc]

/-- Witness for C3 (amended) at concrete calls: two clean exchanges
give history length 5; an empty-content refusal adds 1; a filtered
non-empty refusal adds 2. -/
theorem claim_C3_amended_witness :
    (generate_response_iter
        (Agent.init "provider/model-alpha" "You are agent alpha." "Agent A")
        [("Hello.", respSample), ("Go on.", respSampleB)]).history.length =
      1 + 2 * 2 ∧
    (generate_response "Hello." agSample [Except.ok respEmpty] 3).1.history.length =
      agSample.history.length + 1 ∧
    (generate_response "Hello." agSample [Except.ok respFiltered] 3).1.history.length =
      agSample.history.length + 2 :=
  ⟨claim_C3_amended.1 "provider/model-alpha" "You are agent alpha." "Agent A"
      [("Hello.", respSample), ("Go on.", respSampleB)] (by decide),
    claim_C3_amended.2.1 agSample "Hello." respEmpty (by decide) (by decide),
    claim_C3_amended.2.2 agSample "Hello." respFiltered (by decide) (by decide)⟩

/-- C4. In every run, the log entry produced for Agent A and the log
entry produced for Agent B within the same round carry the same
`turn_id`, and across successive rounds `turn_id` is strictly
increasing starting at 0: the j-th yielded entry carries
`turn_id = j / 2`. -/
theorem claim_C4 (st : OrchestratorState) (num_turns : Nat)
    (initial_message : String) (env : Nat → CallEnv) (j : Nat)
    (h : j < (run_simulation st num_turns initial_message env).2.1.length) :
    (run_simulation st num_turns initial_message env).2.1[j].turn_id = j / 2 := by
  have := (EntriesFrom_getElem _ _ _ _
    (run_simulation st num_turns initial_message env).2.1 0 0
    (run_loop_entriesFrom env num_turns st initial_message 0 _ _ _ _
      rfl rfl rfl rfl) j h).1
  simpa using this

/-- Witness for C4 at entry index 3 of a 2-round run: its `turn_id`
is `3 / 2 = 1`. -/
theorem claim_C4_witness :
    ((run_simulation stSample 2 "Hello." envOk).2.1.get ⟨3, by decide⟩).turn_id =
      3 / 2 :=
  claim_C4 stSample 2 "Hello." envOk 3 (by decide)

/-- C5. If an agent's completion call raises on all 3 attempts, the
exception reaches the orchestrator, the run stops (aborted) at that
point, no log entry is yielded or appended for the failed turn, and
every log entry already yielded before the failure remains in the log
list unchanged (no rollback): stated for a failure of Agent A's call
(nothing yielded in that round), for a failure of Agent B's call
(only A's entry of that round yielded), and as the general
no-rollback invariant `final logs = logs at loop entry ++ yielded`. -/
theorem claim_C5 :
    (∀ (env : Nat → CallEnv) (st : OrchestratorState) (last_message : String)
        (turn_id remaining : Nat) (rest : List (Except Unit Response)),
      (env (2 * turn_id)).attempts =
        Except.error () :: Except.error () :: Except.error () :: rest →
      (run_loop env st last_message turn_id (remaining + 1)).2.1 = [] ∧
      (run_loop env st last_message turn_id (remaining + 1)).2.2 =
        StopReason.error_a ∧
      (run_loop env st last_message turn_id (remaining + 1)).1.logs = st.logs) ∧
    (∀ (env : Nat → CallEnv) (st : OrchestratorState) (last_message : String)
        (turn_id remaining : Nat) (trA : TurnResult)
        (rest : List (Except Unit Response)),
      callResult (env (2 * turn_id)).attempts 3 = Except.ok trA →
      trA.is_refusal = false →
      (env (2 * turn_id + 1)).attempts =
        Except.error () :: Except.error () :: Except.error () :: rest →
      (run_loop env st last_message turn_id (remaining + 1)).2.1.length = 1 ∧
      (run_loop env st last_message turn_id (remaining + 1)).2.2 =
        StopReason.error_b ∧
      (run_loop env st last_message turn_id (remaining + 1)).1.logs =
        st.logs ++ (run_loop env st last_message turn_id (remaining + 1)).2.1) ∧
    (∀ (env : Nat → CallEnv) (st : OrchestratorState) (last_message : String)
        (turn_id remaining : Nat),
      (run_loop env st last_message turn_id remaining).1.logs =
        st.logs ++ (run_loop env st last_message turn_id remaining).2.1) := by
  refine ⟨?_, ?_, ?_⟩
  · intro env st last_message turn_id remaining rest hatt
    rw [run_loop]
    simp only [generate_response_eq]
    rw [hatt, callResult_three_errors]
    simp
  · intro env st last_message turn_id remaining trA rest hA hrA hatt
    rw [run_loop]
    simp only [generate_response_eq]
    rw [hA]
    simp only [hrA, if_neg Bool.false_ne_true]
    rw [hatt, callResult_three_errors]
    simp
  · intro env st last_message turn_id remaining
    exact run_loop_logs env remaining st last_message turn_id

/-- Witness for C5: a run whose very first call always raises yields
nothing and stops with `error_a` leaving the log list as it was; a run
where A succeeds and B's call always raises stops with `error_b`
keeping exactly A's entry. -/
theorem claim_C5_witness :
    ((run_simulation stSample 3 "Hello." envFail).2.1 = [] ∧
      (run_simulation stSample 3 "Hello." envFail).2.2 = StopReason.error_a ∧
      (run_simulation stSample 3 "Hello." envFail).1.logs = stSample.logs) ∧
    ((run_simulation stSample 3 "Hello."
        (fun i => if i = 0 then envOk 0 else envFail i)).2.1.length = 1 ∧
      (run_simulation stSample 3 "Hello."
        (fun i => if i = 0 then envOk 0 else envFail i)).2.2 =
        StopReason.error_b ∧
      (run_simulation stSample 3 "Hello."
          (fun i => if i = 0 then envOk 0 else envFail i)).1.logs =
        stSample.logs ++ (run_simulation stSample 3 "Hello."
          (fun i => if i = 0 then envOk 0 else envFail i)).2.1) :=
  ⟨claim_C5.1 envFail stSample "Hello." 0 2 [] rfl,
    claim_C5.2.1 (fun i => if i = 0 then envOk 0 else envFail i)
      stSample "Hello." 0 2 (mkTurnResult respSample) [] rfl (by decide) rfl⟩

/-- C6. If the underlying completion request raises on the first two
attempts and succeeds on the third, `Agent.generate_response` returns
a normal `TurnResult` — content, latency, token counts, finish reason
and refusal flag all taken from the third attempt's response — and no
error is surfaced to its caller. -/
theorem claim_C6 (ag : AgentState) (input_text : String) (r : Response)
    (rest : List (Except Unit Response)) :
    (generate_response input_text ag
        (Except.error () :: Except.error () :: Except.ok r :: rest) 3).2 =
      Except.ok
        { content := r.content
          latency_ms := r.latency_ms
          input_tokens := (r.usage.map Prod.fst).getD 0
          output_tokens := (r.usage.map Prod.snd).getD 0
          finish_reason := r.finish_reason
          is_refusal := respRefusal r } := rfl

/-- C7. Every yielded log entry's `system_prompt_snapshot` equals the
persona snapshot captured at orchestrator construction for the
speaking side — the config's `user_persona_snapshot` if supplied, else
that agent's system prompt — for all of that speaker's entries (even
entries are Agent A's, odd ones Agent B's), independently of
everything that happens later in the run. -/
theorem claim_C7 (agent_a_config agent_b_config : AgentConfig)
    (scenario_name : String) (experiment_id : Option String)
    (fresh_uuid : String) (num_turns : Nat) (initial_message : String)
    (env : Nat → CallEnv) (j : Nat)
    (h : j < (run_simulation
        (Orchestrator.init agent_a_config agent_b_config scenario_name
          experiment_id fresh_uuid)
        num_turns initial_message env).2.1.length) :
    (run_simulation
        (Orchestrator.init agent_a_config agent_b_config scenario_name
          experiment_id fresh_uuid)
        num_turns initial_message env).2.1[j].system_prompt_snapshot =
      if j % 2 = 0 then
        agent_a_config.user_persona_snapshot.getD agent_a_config.system_prompt
      else
        agent_b_config.user_persona_snapshot.getD agent_b_config.system_prompt := by
  have := (EntriesFrom_getElem _ _ _ _
    (run_simulation
      (Orchestrator.init agent_a_config agent_b_config scenario_name
        experiment_id fresh_uuid)
      num_turns initial_message env).2.1 0 0
    (run_loop_entriesFrom env num_turns _ initial_message 0 _ _ _ _
      rfl rfl rfl rfl) j h).2.1
  simpa [Orchestrator.init, Agent.init] using this

/-- Witness for C7 on a concrete 2-round run: Agent A's entry at index
2 carries the supplied persona override, Agent B's entry at index 3
falls back to B's system prompt. -/
theorem claim_C7_witness :
    ((run_simulation stSample 2 "Hello." envOk).2.1.get
        ⟨2, by decide⟩).system_prompt_snapshot =
      (if 2 % 2 = 0 then
        cfgSampleA.user_persona_snapshot.getD cfgSampleA.system_prompt
      else cfgSampleB.user_persona_snapshot.getD cfgSampleB.system_prompt) ∧
    ((run_simulation stSample 2 "Hello." envOk).2.1.get
        ⟨3, by decide⟩).system_prompt_snapshot =
      (if 3 % 2 = 0 then
        cfgSampleA.user_persona_snapshot.getD cfgSampleA.system_prompt
      else cfgSampleB.user_persona_snapshot.getD cfgSampleB.system_prompt) :=
  ⟨claim_C7 cfgSampleA cfgSampleB "negotiation" none "uuid-1234" 2 "Hello."
      envOk 2 (by decide),
    claim_C7 cfgSampleA cfgSampleB "negotiation" none "uuid-1234" 2 "Hello."
      envOk 3 (by decide)⟩

/-- C8. For `num_turns = 1` with `initial_message = "Hello."` and both
agents succeeding on their first attempt with non-refusing results:
exactly 2 log entries are yielded, entry 0's speaker model is Agent
A's model id, entry 1's responder model is Agent A's model id, and the
input Agent B replies to — the user message appended to B's history —
is Agent A's generated content; in particular it is not the original
`"Hello."` whenever A's content differs from it. -/
theorem claim_C8 (agent_a_config agent_b_config : AgentConfig)
    (scenario_name : String) (experiment_id : Option String)
    (fresh_uuid : String) (env : Nat → CallEnv) (rA rB : Response)
    (tsA tsB : Nat)
    (h0 : env 0 = { attempts := [Except.ok rA], timestamp := tsA })
    (h1 : env 1 = { attempts := [Except.ok rB], timestamp := tsB })
    (hrA : respRefusal rA = false) (hrB : respRefusal rB = false) :
    ((run_simulation
        (Orchestrator.init agent_a_config agent_b_config scenario_name
          experiment_id fresh_uuid) 1 "Hello." env).2.1.map
        LogEntry.speaker_model =
      [agent_a_config.model, agent_b_config.model]) ∧
    ((run_simulation
        (Orchestrator.init agent_a_config agent_b_config scenario_name
          experiment_id fresh_uuid) 1 "Hello." env).2.1.map
        LogEntry.responder_model =
      [agent_b_config.model, agent_a_config.model]) ∧
    ((run_simulation
        (Orchestrator.init agent_a_config agent_b_config scenario_name
          experiment_id fresh_uuid) 1 "Hello." env).1.agent_b.history =
      [Message.mk Role.system agent_b_config.system_prompt,
        Message.mk Role.user (rA.content.getD ""),
        Message.mk Role.assistant (rB.content.getD "")]) ∧
    (rA.content ≠ some "Hello." →
      Message.mk Role.user (rA.content.getD "") ≠
        Message.mk Role.user "Hello.") := by
  have hTb : contentTruthy rB.content = true :=
    ((respRefusal_false_iff rB).mp hrB).1
  have hisA : (mkTurnResult rA).is_refusal = false := hrA
  have hisB : (mkTurnResult rB).is_refusal = false := hrB
  rw [run_simulation, run_loop]
  simp only [generate_response_eq, Nat.mul_zero, Nat.zero_add, h0, h1,
    callResult_ok_head]
  simp only [hisA, if_neg Bool.false_ne_true, hisB]
  rw [run_loop]
  refine ⟨?_, ?_, ?_, ?_⟩
  · simp [create_log_entry, Orchestrator.init, Agent.init]
  · simp [create_log_entry, Orchestrator.init, Agent.init]
  · simp [Orchestrator.init, Agent.init, mkTurnResult,
      appendedMessages_ok_head, hTb]
  · intro hne hmsg
    rcases hc : rA.content with _ | s
    · rw [hc] at hmsg
      have : contentTruthy rA.content = true :=
        ((respRefusal_false_iff rA).mp hrA).1
      rw [hc] at this
      simp [contentTruthy] at this
    · rw [hc] at hmsg
      simp at hmsg
      exact hne (by rw [hc, hmsg])

/-- Environment for the C8 witness: call 0 answers with `respSample`,
call 1 with `respSampleB`. -/
def envC8 : Nat → CallEnv :=
  fun i =>
    if i = 0 then { attempts := [Except.ok respSample], timestamp := 5 }
    else { attempts := [Except.ok respSampleB], timestamp := 6 }

/-- Witness for C8 on fully concrete configurations and responses. -/
theorem claim_C8_witness :
    ((run_simulation stSample 1 "Hello." envC8).2.1.map LogEntry.speaker_model =
      [cfgSampleA.model, cfgSampleB.model]) ∧
    ((run_simulation stSample 1 "Hello." envC8).2.1.map LogEntry.responder_model =
      [cfgSampleB.model, cfgSampleA.model]) ∧
    ((run_simulation stSample 1 "Hello." envC8).1.agent_b.history =
      [Message.mk Role.system cfgSampleB.system_prompt,
        Message.mk Role.user (respSample.content.getD ""),
        Message.mk Role.assistant (respSampleB.content.getD "")]) ∧
    (respSample.content ≠ some "Hello." →
      Message.mk Role.user (respSample.content.getD "") ≠
        Message.mk Role.user "Hello.") :=
  claim_C8 cfgSampleA cfgSampleB "negotiation" none "uuid-1234" envC8
    respSample respSampleB 5 6 rfl rfl (by decide) (by decide)

/-- C9. Because the user message is appended to history inside the
retried function body, every failed attempt of
`Agent.generate_response` leaves an extra copy of the inbound text as
a user message: a call that fails twice then succeeds on the third
attempt leaves three consecutive copies of the user message in the
agent's history (followed by the assistant reply when content is
truthy), and a call that fails on all 3 attempts leaves the three
appended user messages in place and propagates the error (no rollback
on error). -/
theorem claim_C9 :
    (∀ (ag : AgentState) (input_text : String) (r : Response)
        (rest : List (Except Unit Response)),
      (generate_response input_text ag
          (Except.error () :: Except.error () :: Except.ok r :: rest) 3).1.history =
        ag.history ++
          [Message.mk Role.user input_text, Message.mk Role.user input_text,
            Message.mk Role.user input_text] ++
          (if contentTruthy r.content then
            [Message.mk Role.assistant (r.content.getD "")] else [])) ∧
    (∀ (ag : AgentState) (input_text : String),
      generate_response input_text ag
          [Except.error (), Except.error (), Except.error ()] 3 =
        ({ ag with history := ag.history ++
            [Message.mk Role.user input_text, Message.mk Role.user input_text,
              Message.mk Role.user input_text] }, Except.error ())) := by
  constructor
  · intro ag input_text r rest
    rw [generate_response_eq, appendedMessages_two_errors_ok]
    by_cases hc : contentTruthy r.content = true
    · simp [hc]
    · simp only [Bool.not_eq_true] at hc
      simp [hc]
  · intro ag input_text
    rw [generate_response_eq, appendedMessages_three_errors,
      callResult_three_errors]

lemma foldl_append_flatten (g : Nat → List LogEntry) :
    ∀ (idxs : List Nat) (file0 : List LogEntry),
      idxs.foldl (fun f j => f ++ g j) file0 = file0 ++ (idxs.map g).flatten := by
  intro idxs
  induction idxs with
  | nil => intro file0; simp
  | cons j rest ih =>
    intro file0
    rw [List.foldl_cons, ih, List.map_cons, List.flatten_cons,
      List.append_assoc]

/-- The file produced by the `run_experiments` save pattern is the
original contents followed by every saved prefix in order. -/
lemma run_experiments_file_eq (st0 : OrchestratorState)
    (ys file0 : List LogEntry) :
    run_experiments_file st0 ys file0 =
      file0 ++ ((List.range ys.length).map (fun j => ys.take (j + 1))).flatten := by
  unfold run_experiments_file save_logs
  exact foldl_append_flatten _ _ _

/-- In a duplicate-free list, the prefix of length `k` contains the
i-th element exactly when `i < k`. -/
lemma count_take_nodup (ys : List LogEntry) (hnd : ys.Nodup) (i k : Nat)
    (h : i < ys.length) :
    (ys.take k).count ys[i] = if i < k then 1 else 0 := by
  by_cases hik : i < k
  · rw [if_pos hik]
    have hlen : i < (ys.take k).length := by
      simp [List.length_take]
      omega
    have hmem : ys[i] ∈ ys.take k := by
      have hget : (ys.take k)[i] = ys[i] := List.getElem_take ys
      exact hget ▸ List.getElem_mem hlen
    exact List.count_eq_one_of_mem ((List.take_sublist k ys).nodup hnd) hmem
  · rw [if_neg hik]
    apply List.count_eq_zero_of_not_mem
    intro hmem
    obtain ⟨j, hj, hji⟩ := List.getElem_of_mem hmem
    have hjk : j < k := by
      have := hj
      simp [List.length_take] at this
      omega
    have hjys : j < ys.length := by
      have := hj
      simp [List.length_take] at this
      omega
    have hgetj : (ys.take k)[j] = ys[j] := List.getElem_take ys
    have : ys[j] = ys[i] := by rw [← hgetj, hji]
    have := hnd.getElem_inj_iff.mp this
    omega

lemma sum_range_indicator_zero (i : Nat) :
    ∀ (m : Nat), m ≤ i →
      (((List.range m).map (fun j => if i < j + 1 then 1 else 0)).sum : Nat) = 0 := by
  intro m
  induction m with
  | zero => intro _; simp
  | succ n ih =>
    intro hm
    rw [List.range_succ, List.map_append, List.sum_append, ih (by omega)]
    have hni : ¬ i < n + 1 := by omega
    simp [hni]

lemma sum_range_indicator (i : Nat) :
    ∀ (m : Nat), i < m →
      (((List.range m).map (fun j => if i < j + 1 then 1 else 0)).sum : Nat) =
        m - i := by
  intro m
  induction m with
  | zero => intro hm; omega
  | succ n ih =>
    intro hm
    rw [List.range_succ, List.map_append, List.sum_append]
    by_cases hin : i < n
    · rw [ih hin]
      have hi1 : i < n + 1 := by omega
      simp [hi1]
      omega
    · have hieq : i = n := by omega
      subst hieq
      rw [sum_range_indicator_zero i i (Nat.le_refl i)]
      simp

/-- C10. Every call to `Orchestrator.save_logs` appends the entire
accumulated log list to the target file (append mode, one entry per
line) without truncating or deduplicating; consequently, invoking
`save_logs` once per yielded entry on the same file — as
`run_experiments` does — writes the i-th accumulated entry once for
each save call made after it was accumulated, i.e. `length - i`
times for distinct entries. -/
theorem claim_C10 :
    (∀ (st : OrchestratorState) (file_lines : List LogEntry),
      save_logs st file_lines = file_lines ++ st.logs) ∧
    (∀ (st0 : OrchestratorState) (ys file0 : List LogEntry) (i : Nat)
        (h : i < ys.length),
      ys.Nodup →
      (run_experiments_file st0 ys file0).count ys[i] =
        file0.count ys[i] + (ys.length - i)) := by
  constructor
  · intro st file_lines
    rfl
  · intro st0 ys file0 i h hnd
    rw [run_experiments_file_eq, List.count_append, List.count_flatten,
      List.map_map]
    have hmap : (List.range ys.length).map
          (List.count ys[i] ∘ fun j => ys.take (j + 1)) =
        (List.range ys.length).map (fun j => if i < j + 1 then 1 else 0) :=
      List.map_congr_left
        (fun j _ => count_take_nodup ys hnd i (j + 1) h)
    rw [hmap, sum_range_indicator i ys.length h]

/-- A sample distinct log entry, indexed by its timestamp. -/
def entrySample (k : Nat) : LogEntry :=
  { experiment_id := "uuid-1234", turn_id := k, scenario := "negotiation",
    speaker_model := "provider/model-alpha",
    responder_model := "provider/model-beta", timestamp := k,
    latency_ms := 0, input_tokens := 0, output_tokens := 0,
    content := none, finish_reason := "stop", is_refusal := true,
    system_prompt_snapshot := "Alpha persona" }

/-- Witness for C10: saving once per entry over three distinct entries
writes the middle entry `3 - 1 = 2` times. -/
theorem claim_C10_witness :
    save_logs stSample [entrySample 0] = [entrySample 0] ++ stSample.logs ∧
    (run_experiments_file stSample
        [entrySample 0, entrySample 1, entrySample 2] []).count
        ([entrySample 0, entrySample 1, entrySample 2].get ⟨1, by decide⟩) =
      ([] : List LogEntry).count
        ([entrySample 0, entrySample 1, entrySample 2].get ⟨1, by decide⟩) +
        ([entrySample 0, entrySample 1, entrySample 2].length - 1) :=
  ⟨claim_C10.1 stSample [entrySample 0],
    claim_C10.2 stSample [entrySample 0, entrySample 1, entrySample 2] [] 1
      (by decide) (by decide)⟩

end ParrotLM
